import Mathlib

/-!
Shallow embedding of the pubsub-log-aggregator core: the pydantic event
validator (`src/aggregator/models.py`), the engine / config construction
(`src/aggregator/database.py`, `src/aggregator/config.py`), the stats
initialisation (`init_db`), and the transactional dedup protocol
(`src/aggregator/dedup.py`, `DedupProcessor.process_event`).

The database session is modelled as explicit state: a committed `DBState`
plus the session's pending (unflushed / uncommitted) work.  Python's
`datetime.fromisoformat` is an abstract parameter `iso : String → Option Nat`
threaded through both the validator and the processor, exactly as both call
sites apply it to `v.replace("Z", "+00:00")`.  Exceptions raised by the
store are modelled with `Except`, and fault injection for the session
primitives is a `FaultSpec` of per-call-site flags.
-/

namespace Aggregator

/-- Python exceptions relevant to `process_event`: `IntegrityError`
(the unique-constraint violation, caught by the inner handler) and any
other exception, carrying its `str(e)` message. -/
inductive PyErr where
  | integrityError : PyErr
  | other : String → PyErr
deriving Repr, DecidableEq

def PyErr.msg : PyErr → String
  | .integrityError => "IntegrityError"
  | .other m => m

/-- In-flight event (pydantic `Event`, models.py lines 64-92): the five wire
fields; `payload` kept abstract as a string since the core never inspects it. -/
structure Event where
  topic : String
  event_id : String
  timestamp : String
  source : String
  payload : String
deriving Repr, DecidableEq

/-- Durable `processed_events` row (models.py lines 12-26); `timestamp` is
the parsed instant, `id` / `processed_at` are server-assigned and irrelevant
to the dedup protocol, so they are not modelled. -/
structure Row where
  topic : String
  event_id : String
  timestamp : Nat
  source : String
  payload : String
deriving Repr, DecidableEq

/-- The `event_stats` singleton counters (models.py lines 29-36);
`last_updated` is wall-clock and not modelled. -/
structure Stats where
  received : Nat
  unique_processed : Nat
  duplicate_dropped : Nat
deriving Repr, DecidableEq

/-- An `audit_logs` row (models.py lines 39-52); `details` flattened to a
string. -/
structure Audit where
  event_topic : String
  event_id : String
  action : String
  details : String
deriving Repr, DecidableEq

/-- Committed database state: the three tables the dedup protocol touches. -/
structure DBState where
  rows : List Row
  stats : Stats
  audits : List Audit
deriving Repr, DecidableEq

/-- A SQLAlchemy session over a committed state: `newRows` are added but not
flushed, `flushedRows` are flushed inside the open transaction, `newAudits`
are added audit rows, `stagedStats` is the in-transaction modification of the
stats row made under `SELECT ... FOR UPDATE`. -/
structure Session where
  committed : DBState
  newRows : List Row
  flushedRows : List Row
  newAudits : List Audit
  stagedStats : Option Stats
deriving Repr, DecidableEq

/-- The dedup key of a row: the ordered pair `(topic, event_id)`
(unique constraint `uq_topic_event_id`, models.py lines 23-26). -/
def dedupKey (r : Row) : String × String := (r.topic, r.event_id)

/-- Whether some row with the given dedup key is present. -/
def hasKey (rows : List Row) (k : String × String) : Bool :=
  rows.any fun r => r.topic = k.1 && r.event_id = k.2

/-- `session.add(row)` for a `ProcessedEvent` (dedup.py line 27). -/
def Session.addRow (s : Session) (r : Row) : Session :=
  { s with newRows := s.newRows ++ [r] }

/-- `_log_audit` (dedup.py lines 102-106): adds the audit row to the session
without flushing or committing. -/
def Session.addAudit (s : Session) (a : Audit) : Session :=
  { s with newAudits := s.newAudits ++ [a] }

/-- The stats row as seen inside the open transaction. -/
def Session.readStats (s : Session) : Stats :=
  s.stagedStats.getD s.committed.stats

def Session.stageStats (s : Session) (st : Stats) : Session :=
  { s with stagedStats := some st }

/-- `session.flush()` (dedup.py line 30): pushes added rows into the open
transaction; raises `IntegrityError` when an added row's dedup key already
exists among committed or already-flushed rows.  `fault` injects a
non-constraint store failure. -/
def Session.flush (s : Session) (fault : Bool) :
    Except (PyErr × Session) Session :=
  if fault then .error (.other "flush failed", s)
  else if s.newRows.any (fun r => hasKey (s.committed.rows ++ s.flushedRows) (dedupKey r)) then
    .error (.integrityError, s)
  else .ok { s with newRows := [], flushedRows := s.flushedRows ++ s.newRows }

/-- `session.commit()`: flushes any remaining pending rows (checking the
unique constraint) and makes the transaction's work durable.  `fault`
injects a commit failure, which leaves the pending work in the session. -/
def Session.commit (s : Session) (fault : Bool) :
    Except (PyErr × Session) Session :=
  if fault then .error (.other "commit failed", s)
  else if s.newRows.any (fun r => hasKey (s.committed.rows ++ s.flushedRows) (dedupKey r)) then
    .error (.integrityError, s)
  else .ok
    { committed :=
        { rows := s.committed.rows ++ s.flushedRows ++ s.newRows
          stats := s.stagedStats.getD s.committed.stats
          audits := s.committed.audits ++ s.newAudits }
      newRows := []
      flushedRows := []
      newAudits := []
      stagedStats := none }

/-- `session.rollback()`: discards all pending work, keeps the committed
state.  `fault` injects a rollback failure. -/
def Session.rollback (s : Session) (fault : Bool) :
    Except (PyErr × Session) Session :=
  if fault then .error (.other "rollback failed", s)
  else .ok { s with newRows := [], flushedRows := [], newAudits := [], stagedStats := none }

/-- Fault-injection flags, one per fallible session call site inside
`process_event` (dedup.py line numbers in the field comments). -/
structure FaultSpec where
  /-- non-constraint failure of `self.db.flush()` (line 30) -/
  flushFault : Bool
  /-- failure of the `SELECT ... FOR UPDATE` in `_update_stats` (lines 83-84) -/
  statsFault : Bool
  /-- failure of `self.db.commit()` on the success path (line 42) -/
  commitFault : Bool
  /-- failure of `self.db.rollback()` in the `IntegrityError` handler (line 49) -/
  dupRollbackFault : Bool
  /-- failure of the `SELECT ... FOR UPDATE` in `_update_stats_duplicate` (lines 91-92) -/
  dupSelectFault : Bool
  /-- failure of `self.db.commit()` inside `_update_stats_duplicate` (line 97) -/
  dupCommitFault : Bool
  /-- failure of `self.db.rollback()` inside `_update_stats_duplicate`'s handler (line 99) -/
  dupFailRollbackFault : Bool
  /-- failure of `self.db.rollback()` in the outer `except` handler (line 66) -/
  errRollbackFault : Bool
  /-- failure of `self.db.commit()` for the best-effort error audit (line 76) -/
  errAuditCommitFault : Bool
deriving Repr, DecidableEq

/-- The fault-free session behaviour. -/
def noFaults : FaultSpec :=
  ⟨false, false, false, false, false, false, false, false, false⟩

/-- Replace every `'Z'` by `"+00:00"`, character by character. -/
def replaceZChars : List Char → List Char
  | [] => []
  | c :: cs =>
    if c = 'Z' then '+' :: '0' :: '0' :: ':' :: '0' :: '0' :: replaceZChars cs
    else c :: replaceZChars cs

/-- `v.replace("Z", "+00:00")` (dedup.py line 17 and models.py line 89) —
Python `str.replace` substitutes every occurrence of the pattern; since the
pattern is the single character `Z`, that is exactly a character-wise
replacement. -/
def pyReplaceZ (v : String) : String := String.mk (replaceZChars v.data)

/-- `_update_stats(received=1, unique=1)` (dedup.py lines 82-87): reads the
stats row under `FOR UPDATE` and stages the increments; no commit here. -/
def updateStats (f : FaultSpec) (s : Session) (recv uniq : Nat) :
    Except (PyErr × Session) Session :=
  if f.statsFault then .error (.other "stats select failed", s)
  else
    let st := s.readStats
    .ok (s.stageStats
      { st with received := st.received + recv, unique_processed := st.unique_processed + uniq })

/-- `_update_stats_duplicate` (dedup.py lines 89-100): in its own try block,
reads the stats row under `FOR UPDATE`, increments `received` and
`duplicate_dropped`, and commits; on any failure it rolls back and swallows
the error (only a failure of that rollback itself propagates). -/
def updateStatsDuplicate (f : FaultSpec) (s : Session) :
    Except (PyErr × Session) Session :=
  if f.dupSelectFault then
    match s.rollback f.dupFailRollbackFault with
    | .error es => .error es
    | .ok s1 => .ok s1
  else
    let st := s.readStats
    let s1 := s.stageStats
      { st with received := st.received + 1, duplicate_dropped := st.duplicate_dropped + 1 }
    match s1.commit f.dupCommitFault with
    | .error (_, s2) =>
        match s2.rollback f.dupFailRollbackFault with
        | .error es => .error es
        | .ok s3 => .ok s3
    | .ok s2 => .ok s2

/-- The `except IntegrityError` handler (dedup.py lines 47-63): rollback,
`_update_stats_duplicate` (which commits the counters), then `_log_audit`
with action `duplicate` — note: no commit of the audit row here. -/
def dupPath (f : FaultSpec) (ev : Event) (s : Session) :
    Except (PyErr × Session) ((Bool × String) × Session) :=
  match s.rollback f.dupRollbackFault with
  | .error es => .error es
  | .ok s1 =>
    match updateStatsDuplicate f s1 with
    | .error es => .error es
    | .ok s2 =>
      let s3 := s2.addAudit
        ⟨ev.topic, ev.event_id, "duplicate", "reason=unique_constraint_violation"⟩
      .ok ((true, "duplicate"), s3)

/-- The body of `process_event`'s outer try (dedup.py lines 16-63): parse
the timestamp, build and add the row, flush; on success update stats, audit
`processed`, commit; on `IntegrityError` run the duplicate path.  Any other
exception escapes to the outer handler together with the session state at
the raise point. -/
def outerBody (iso : String → Option Nat) (f : FaultSpec) (ev : Event) (s0 : Session) :
    Except (PyErr × Session) ((Bool × String) × Session) :=
  match iso (pyReplaceZ ev.timestamp) with
  | none => .error (.other ("Invalid isoformat string: " ++ ev.timestamp), s0)
  | some ts =>
    let s1 := s0.addRow ⟨ev.topic, ev.event_id, ts, ev.source, ev.payload⟩
    match s1.flush f.flushFault with
    | .error (.integrityError, s2) => dupPath f ev s2
    | .error (e, s2) => .error (e, s2)
    | .ok s2 =>
      match updateStats f s2 1 1 with
      | .error es => .error es
      | .ok s3 =>
        let s4 := s3.addAudit ⟨ev.topic, ev.event_id, "processed", "source=" ++ ev.source⟩
        match s4.commit f.commitFault with
        | .error es => .error es
        | .ok s5 => .ok ((true, "processed"), s5)

/-- The outer `except Exception` handler (dedup.py lines 65-80): rollback
(unprotected — its failure propagates to the caller), then best-effort add
and commit an `error` audit row, swallowing any failure of that, and return
`(False, f"Error: {str(e)}")`. -/
def errorPath (f : FaultSpec) (ev : Event) (e : PyErr) (s : Session) :
    Except PyErr ((Bool × String) × Session) :=
  match s.rollback f.errRollbackFault with
  | .error (e2, _) => .error e2
  | .ok s1 =>
    let s2 := s1.addAudit ⟨ev.topic, ev.event_id, "error", "error=" ++ e.msg⟩
    match s2.commit f.errAuditCommitFault with
    | .error (_, s3) => .ok ((false, "Error: " ++ e.msg), s3)
    | .ok s3 => .ok ((false, "Error: " ++ e.msg), s3)

/-- `DedupProcessor.process_event` (dedup.py lines 15-80). -/
def processEvent (iso : String → Option Nat) (f : FaultSpec) (ev : Event) (s0 : Session) :
    Except PyErr ((Bool × String) × Session) :=
  match outerBody iso f ev s0 with
  | .ok r => .ok r
  | .error (e, s1) => errorPath f ev e s1

/-- The session a worker holds right after `init_db` on a fresh store:
empty tables and the stats singleton at zero. -/
def initSession : Session :=
  { committed := { rows := [], stats := ⟨0, 0, 0⟩, audits := [] }
    newRows := []
    flushedRows := []
    newAudits := []
    stagedStats := none }

/-- The session after one fault-free `process_event` call (the consumer's
per-event step; with `noFaults` the call always returns a value). -/
def stepEvent (iso : String → Option Nat) (ev : Event) (s : Session) : Session :=
  match processEvent iso noFaults ev s with
  | .ok (_, s1) => s1
  | .error _ => s

/-- Sequential presentation of a list of events to one `DedupProcessor`
over one session, fault-free (the consumer's per-event call, serialised). -/
def runEvents (iso : String → Option Nat) (evs : List Event) (s : Session) : Session :=
  evs.foldl (fun s ev => stepEvent iso ev s) s

/-- A session with no open transaction work: nothing added or flushed and no
staged stats.  Pending (never-committed) audit rows may remain — exactly the
state `process_event` leaves between calls. -/
def CleanSession (s : Session) : Prop :=
  s.newRows = [] ∧ s.flushedRows = [] ∧ s.stagedStats = none

/-- The counter invariant the spec states at committed boundaries, as the
source maintains it: `received = unique_processed + duplicate_dropped`. -/
def statsBalanced (st : Stats) : Prop :=
  st.received = st.unique_processed + st.duplicate_dropped

/-- The audit row the error path writes for exception message `m`. -/
def errAudit (ev : Event) (m : String) : Audit :=
  ⟨ev.topic, ev.event_id, "error", "error=" ++ m⟩

/-- Fault spec: only the flush fails (plus optionally the error-audit commit). -/
def flushFaultSpec (a : Bool) : FaultSpec :=
  { noFaults with flushFault := true, errAuditCommitFault := a }

/-- Fault spec: only the `_update_stats` select fails. -/
def statsFaultSpec (a : Bool) : FaultSpec :=
  { noFaults with statsFault := true, errAuditCommitFault := a }

/-- Fault spec: only the success-path commit fails. -/
def commitFaultSpec (a : Bool) : FaultSpec :=
  { noFaults with commitFault := true, errAuditCommitFault := a }

/-- Fault spec: only the best-effort error-audit commit (possibly) fails. -/
def auditFaultSpec (a : Bool) : FaultSpec :=
  { noFaults with errAuditCommitFault := a }

/- ### Concrete fixtures for witnesses -/

/-- A concrete instance of the abstract `datetime.fromisoformat` parameter:
it accepts exactly the normalised form of the spec's example timestamp. -/
def isoSample : String → Option Nat :=
  fun v => if v = "2025-12-02T10:30:00+00:00" then some 1764671400 else none

/-- The spec's example event (§8 scenario 1), payload flattened. -/
def sampleEvent : Event :=
  ⟨"user.login", "evt_A", "2025-12-02T10:30:00Z", "s", "user_id=user_123"⟩

/-- An event whose timestamp `isoSample` rejects: its processing errors. -/
def badTsEvent : Event :=
  ⟨"user.login", "evt_B", "not-a-date", "s", "user_id=user_123"⟩

/-- The session after presenting the sample event twice, sequentially,
starting from the freshly initialised store. -/
def afterTwoSample : Session :=
  runEvents isoSample [sampleEvent, sampleEvent] initSession

/-- An environment that sets `DB_ISOLATION_LEVEL` to `READ COMMITTED` and
leaves every other variable unset. -/
def envReadCommitted : String → Option String :=
  fun k => if k = "DB_ISOLATION_LEVEL" then some "READ COMMITTED" else none

/- ### Validator (models.py, pydantic `Event` / `EventBatch`) -/

/-- The character class of the topic regex `[a-zA-Z0-9._-]`
(models.py line 76); `Char.isAlpha` / `Char.isDigit` are the ASCII ranges,
matching the Python class. -/
def topicCharOk (c : Char) : Bool :=
  c.isAlpha || c.isDigit || c = '.' || c = '_' || c = '-'

/-- `re.match(r"^[a-zA-Z0-9._-]+$", v)` (models.py line 76).  Python's `$`
(without `re.MULTILINE`) matches at the end of the string or just before a
newline at the end of the string, so the match succeeds on a non-empty run
of class characters, optionally followed by exactly one trailing `\n`. -/
def topicRegexMatch (v : String) : Bool :=
  let cs := v.data
  (!cs.isEmpty && cs.all topicCharOk) ||
    (cs.getLast? = some '\n' && !cs.dropLast.isEmpty && cs.dropLast.all topicCharOk)

/-- Python `str.strip()` default whitespace, restricted to ASCII
(the unicode extension is irrelevant to the claims). -/
def pySpace (c : Char) : Bool :=
  c = ' ' || c = '\t' || c = '\n' || c = '\r' || c = '\x0b' || c = '\x0c'

/-- The `topic` field constraints: `min_length=1, max_length=255`
(models.py line 66) then `validate_topic` (lines 74-78). -/
def validTopic (v : String) : Bool :=
  1 ≤ v.length && v.length ≤ 255 && topicRegexMatch v

/-- The `event_id` field constraints: `min_length=1, max_length=255`
(models.py lines 67-69) then `validate_event_id` (lines 80-84):
`v.strip()` must be non-empty. -/
def validEventId (v : String) : Bool :=
  1 ≤ v.length && v.length ≤ 255 && v.data.any (fun c => !pySpace c)

/-- `validate_timestamp` (models.py lines 86-92): the same
`fromisoformat(v.replace("Z", "+00:00"))` expression the processor uses. -/
def validTimestamp (iso : String → Option Nat) (v : String) : Bool :=
  (iso (pyReplaceZ v)).isSome

/-- The `source` field constraints: `min_length=1, max_length=255`
(models.py line 71). -/
def validSource (v : String) : Bool :=
  1 ≤ v.length && v.length ≤ 255

/-- Acceptance by the pydantic `Event` model (models.py lines 64-92). -/
def validEvent (iso : String → Option Nat) (ev : Event) : Bool :=
  validTopic ev.topic && validEventId ev.event_id &&
    validTimestamp iso ev.timestamp && validSource ev.source

/-- Acceptance by `EventBatch` (models.py lines 106-108):
`min_items=1, max_items=1000`, every item a valid `Event`. -/
def validBatch (iso : String → Option Nat) (events : List Event) : Bool :=
  1 ≤ events.length && events.length ≤ 1000 && events.all (validEvent iso)

/- ### Engine and config (database.py lines 14-22, config.py lines 20-23) -/

/-- The engine parameters relevant to claim C6. -/
structure EngineArgs where
  pool_size : Nat
  max_overflow : Nat
  isolation_level : String
deriving Repr, DecidableEq

/-- `create_engine(...)` (database.py lines 14-22): the pool bounds and the
isolation level are hard-coded literals; the environment is not consulted
for them (`os.getenv` appears only for `DATABASE_URL`). -/
def createEngineArgs (_env : String → Option String) : EngineArgs :=
  { pool_size := 10, max_overflow := 20, isolation_level := "SERIALIZABLE" }

/-- The `Config` fields relevant to claim C6. -/
structure ConfigModel where
  DB_POOL_SIZE : Nat
  DB_MAX_OVERFLOW : Nat
  DB_ISOLATION_LEVEL : String
deriving Repr, DecidableEq

/-- Python `int()` on the strings `Config` feeds it: a non-empty run of
decimal digits (non-numeric input raises, modelled as `none`; sign and
whitespace tolerance are irrelevant here). -/
def pyInt (s : String) : Option Nat :=
  if !s.data.isEmpty && s.data.all Char.isDigit then
    some (s.data.foldl (fun n c => n * 10 + (c.toNat - '0'.toNat)) 0)
  else none

/-- `Config` (config.py lines 20-23): reads `DB_POOL_SIZE` (default "10"),
`DB_MAX_OVERFLOW` (default "20") through `int()`, and `DB_ISOLATION_LEVEL`
(default "SERIALIZABLE") from the environment. -/
def configOf (env : String → Option String) : Option ConfigModel :=
  match pyInt ((env "DB_POOL_SIZE").getD "10"), pyInt ((env "DB_MAX_OVERFLOW").getD "20") with
  | some ps, some mo =>
      some { DB_POOL_SIZE := ps, DB_MAX_OVERFLOW := mo
             DB_ISOLATION_LEVEL := (env "DB_ISOLATION_LEVEL").getD "SERIALIZABLE" }
  | _, _ => none

/- ### init_db (database.py lines 50-67) -/

/-- Store state as `init_db` sees it: the stats singleton may not exist yet
(fresh store) — hence `Option Stats` rather than `Stats`. -/
structure InitStore where
  rows : List Row
  statsRow : Option Stats
  audits : List Audit
deriving Repr, DecidableEq

/-- `init_db`'s stats initialisation (database.py lines 50-67): query the
stats row with id=1; only when it is absent, add one with all counters zero
and commit.  `Base.metadata.create_all` only creates missing tables and is
not modelled; no other row is touched. -/
def init_db (db : InitStore) : InitStore :=
  match db.statsRow with
  | some _ => db
  | none => { db with statsRow := some ⟨0, 0, 0⟩ }

/-! ## Theorems -/

/-- Characterisation of a fault-free `process_event` call on a session with
no open transaction work: the three observable outcomes (error on timestamp
parse failure, duplicate when the dedup key is already committed, processed
otherwise), each with the exact resulting session.  Note in the duplicate
branch: the counters are committed but the `duplicate` audit row is left
pending, and the rollback discards any previously pending audit rows. -/
theorem processEvent_noFaults_char (iso : String → Option Nat) (ev : Event) (s : Session)
    (hnr : s.newRows = []) (hfr : s.flushedRows = []) (hss : s.stagedStats = none) :
    processEvent iso noFaults ev s =
      match iso (pyReplaceZ ev.timestamp) with
      | none =>
          .ok ((false, "Error: " ++ ("Invalid isoformat string: " ++ ev.timestamp)),
            { committed :=
                { rows := s.committed.rows
                  stats := s.committed.stats
                  audits := s.committed.audits ++
                    [errAudit ev ("Invalid isoformat string: " ++ ev.timestamp)] }
              newRows := [], flushedRows := [], newAudits := [], stagedStats := none })
      | some t =>
          if hasKey s.committed.rows (ev.topic, ev.event_id) then
            .ok ((true, "duplicate"),
              { committed :=
                  { rows := s.committed.rows
                    stats := { received := s.committed.stats.received + 1
                               unique_processed := s.committed.stats.unique_processed
                               duplicate_dropped := s.committed.stats.duplicate_dropped + 1 }
                    audits := s.committed.audits }
                newRows := [], flushedRows := []
                newAudits := [⟨ev.topic, ev.event_id, "duplicate",
                  "reason=unique_constraint_violation"⟩]
                stagedStats := none })
          else
            .ok ((true, "processed"),
              { committed :=
                  { rows := s.committed.rows ++
                      [⟨ev.topic, ev.event_id, t, ev.source, ev.payload⟩]
                    stats := { received := s.committed.stats.received + 1
                               unique_processed := s.committed.stats.unique_processed + 1
                               duplicate_dropped := s.committed.stats.duplicate_dropped }
                    audits := (s.committed.audits ++ s.newAudits) ++
                      [⟨ev.topic, ev.event_id, "processed", "source=" ++ ev.source⟩] }
                newRows := [], flushedRows := [], newAudits := [], stagedStats := none }) := by
  obtain ⟨⟨rows, st, audits⟩, nr, fr, na, ss⟩ := s
  simp only at hnr hfr hss
  subst hnr; subst hfr; subst hss
  cases hiso : iso (pyReplaceZ ev.timestamp) with
  | none =>
    simp [processEvent, outerBody, errorPath, hiso, Session.rollback, Session.commit,
      Session.addAudit, noFaults, PyErr.msg, errAudit, hasKey]
  | some t =>
    by_cases hk : hasKey rows (ev.topic, ev.event_id) = true
    · simp [processEvent, outerBody, dupPath, updateStatsDuplicate, hiso, hk,
        Session.addRow, Session.flush, Session.rollback, Session.commit,
        Session.addAudit, Session.readStats, Session.stageStats, noFaults,
        dedupKey]
    · simp only [Bool.not_eq_true] at hk
      simp [processEvent, outerBody, updateStats, hiso, hk,
        Session.addRow, Session.flush, Session.rollback, Session.commit,
        Session.addAudit, Session.readStats, Session.stageStats, noFaults,
        dedupKey]

/-- A fault-free step keeps the session free of open transaction work and
preserves the committed counter balance. -/
theorem stepEvent_clean_balanced (iso : String → Option Nat) (ev : Event) (s : Session)
    (hc : CleanSession s) (hb : statsBalanced s.committed.stats) :
    CleanSession (stepEvent iso ev s) ∧ statsBalanced (stepEvent iso ev s).committed.stats := by
  obtain ⟨hnr, hfr, hss⟩ := hc
  have h := processEvent_noFaults_char iso ev s hnr hfr hss
  unfold stepEvent
  rw [h]
  unfold statsBalanced at hb
  cases hiso : iso (pyReplaceZ ev.timestamp) with
  | none => simpa [CleanSession, statsBalanced] using hb
  | some t =>
    by_cases hk : hasKey s.committed.rows (ev.topic, ev.event_id) = true
    · constructor
      · simp [hk, CleanSession]
      · simp [hk, statsBalanced]; omega
    · simp only [Bool.not_eq_true] at hk
      constructor
      · simp [hk, CleanSession]
      · simp [hk, statsBalanced]; omega

/-- C1: presenting a validator-accepted event twice, sequentially and
fault-free, against the freshly initialised store returns
`(True, "processed")` then `(True, "duplicate")`, leaves exactly one
`processed_events` row for the event's dedup key, and leaves the committed
counters at `received = 2`, `unique_processed = 1`, `duplicate_dropped = 1`. -/
theorem c1_sequential_idempotence (iso : String → Option Nat) (ev : Event)
    (hv : validEvent iso ev = true) :
    ∃ s1 s2,
      processEvent iso noFaults ev initSession = .ok ((true, "processed"), s1) ∧
      processEvent iso noFaults ev s1 = .ok ((true, "duplicate"), s2) ∧
      s2.committed.rows.countP
          (fun r => r.topic == ev.topic && r.event_id == ev.event_id) = 1 ∧
      s2.committed.stats = ⟨2, 1, 1⟩ := by
  obtain ⟨t, ht⟩ : ∃ t, iso (pyReplaceZ ev.timestamp) = some t := by
    have hts : validTimestamp iso ev.timestamp = true := by
      simp only [validEvent, Bool.and_eq_true] at hv
      exact hv.1.2
    simpa [validTimestamp, Option.isSome_iff_exists] using hts
  have h1 := processEvent_noFaults_char iso ev initSession rfl rfl rfl
  rw [ht] at h1
  simp only [initSession, hasKey, List.any_nil, Bool.false_eq_true, if_false,
    List.nil_append, List.append_nil] at h1
  have h2 := processEvent_noFaults_char iso ev
    { committed :=
        { rows := [⟨ev.topic, ev.event_id, t, ev.source, ev.payload⟩]
          stats := { received := 0 + 1, unique_processed := 0 + 1, duplicate_dropped := 0 }
          audits := [⟨ev.topic, ev.event_id, "processed", "source=" ++ ev.source⟩] }
      newRows := [], flushedRows := [], newAudits := [], stagedStats := none }
    rfl rfl rfl
  rw [ht] at h2
  simp only [hasKey, List.any_cons, List.any_nil, decide_True, Bool.and_self,
    Bool.true_and, Bool.or_false, Bool.and_true, Bool.or_self, if_true] at h2
  exact ⟨_, _, h1, h2, by simp [List.countP, List.countP.go], by rfl⟩

/-- C2 counterexample: a single `process_event` call whose processing errors
(unparseable timestamp) leaves `received = 0`, not `1`: the error path never
touches the counters, so `received` does not count every event entering the
dedup protocol. -/
theorem c2_counterexample :
    (processEvent isoSample noFaults badTsEvent initSession).toOption.map
        (fun r => (r.1, r.2.committed.stats.received)) =
      some ((false, "Error: Invalid isoformat string: not-a-date"), 0) := by
  rfl

/-- C2 amended: `received` counts only events classified `processed` or
`duplicate` — an errored event leaves every counter unchanged — so at every
committed boundary after any fault-free sequential run,
`received = unique_processed + duplicate_dropped` (with no `errored` term). -/
theorem c2_amended (iso : String → Option Nat) (evs : List Event) :
    statsBalanced (runEvents iso evs initSession).committed.stats := by
  suffices h : ∀ s : Session, CleanSession s → statsBalanced s.committed.stats →
      CleanSession (runEvents iso evs s) ∧
        statsBalanced (runEvents iso evs s).committed.stats by
    exact (h initSession ⟨rfl, rfl, rfl⟩ rfl).2
  induction evs with
  | nil => exact fun s hc hb => ⟨hc, hb⟩
  | cons ev tl ih =>
    intro s hc hb
    have hstep := stepEvent_clean_balanced iso ev s hc hb
    simpa [runEvents, List.foldl_cons] using ih (stepEvent iso ev s) hstep.1 hstep.2

/-- C1 witness: the theorem instantiated at the spec's example event and a
concrete timestamp parser. -/
theorem c1_witness :
    validEvent isoSample sampleEvent = true ∧
    (∃ s1 s2,
      processEvent isoSample noFaults sampleEvent initSession = .ok ((true, "processed"), s1) ∧
      processEvent isoSample noFaults sampleEvent s1 = .ok ((true, "duplicate"), s2) ∧
      s2.committed.rows.countP
          (fun r => r.topic == sampleEvent.topic && r.event_id == sampleEvent.event_id) = 1 ∧
      s2.committed.stats = ⟨2, 1, 1⟩) :=
  ⟨by decide, c1_sequential_idempotence isoSample sampleEvent (by decide)⟩

/-- C3 counterexample: after presenting the sample event twice, the
committed counters already read `2/1/1` but no audit row with action
`duplicate` has been committed — the `duplicate` audit is still pending in
the session, so the duplicate counter and the duplicate audit row are not
durable in the same commit. -/
theorem c3_counterexample :
    afterTwoSample.committed.stats = ⟨2, 1, 1⟩ ∧
    (afterTwoSample.committed.audits.filter (fun a => a.action == "duplicate")).length = 0 ∧
    afterTwoSample.newAudits =
      [⟨"user.login", "evt_A", "duplicate", "reason=unique_constraint_violation"⟩] := by
  decide

/-- C3 amended: on a unique-key violation `process_event` rolls back, then
`_update_stats_duplicate` increments `received` and `duplicate_dropped`
under the stats row-lock and commits them on their own; the `duplicate`
audit record is only added to the session afterwards, left uncommitted by
`process_event` — it becomes durable only with a later commit by the
caller, not in the same commit as the counters. -/
theorem c3_amended (iso : String → Option Nat) (ev : Event) (s : Session) (t : Nat)
    (hts : iso (pyReplaceZ ev.timestamp) = some t)
    (hdup : hasKey s.committed.rows (ev.topic, ev.event_id) = true)
    (hnr : s.newRows = []) (hfr : s.flushedRows = []) (hss : s.stagedStats = none) :
    processEvent iso noFaults ev s = .ok ((true, "duplicate"),
      { committed :=
          { rows := s.committed.rows
            stats := { received := s.committed.stats.received + 1
                       unique_processed := s.committed.stats.unique_processed
                       duplicate_dropped := s.committed.stats.duplicate_dropped + 1 }
            audits := s.committed.audits }
        newRows := [], flushedRows := []
        newAudits := [⟨ev.topic, ev.event_id, "duplicate",
          "reason=unique_constraint_violation"⟩]
        stagedStats := none }) := by
  have h := processEvent_noFaults_char iso ev s hnr hfr hss
  simp only [hts, hdup, if_true] at h
  exact h

/-- C3 witness: the amended theorem at the sample event against a store
that already holds its dedup key. -/
theorem c3_witness :
    processEvent isoSample noFaults sampleEvent
        { committed :=
            { rows := [⟨"user.login", "evt_A", 1764671400, "s", "user_id=user_123"⟩]
              stats := ⟨1, 1, 0⟩
              audits := [] }
          newRows := [], flushedRows := [], newAudits := [], stagedStats := none } =
      .ok ((true, "duplicate"),
        { committed :=
            { rows := [⟨"user.login", "evt_A", 1764671400, "s", "user_id=user_123"⟩]
              stats := ⟨2, 1, 1⟩
              audits := [] }
          newRows := [], flushedRows := []
          newAudits := [⟨"user.login", "evt_A", "duplicate",
            "reason=unique_constraint_violation"⟩]
          stagedStats := none }) :=
  c3_amended isoSample sampleEvent _ 1764671400 (by decide) (by decide) rfl rfl rfl

/-- The outer `except Exception` handler, characterised: provided its own
rollback does not fail, it discards all pending work (committed state
untouched), appends and best-effort commits exactly one `error` audit row
(left pending when that commit fails, which is swallowed), and returns
`(False, "Error: " ++ str(e))`. -/
theorem errorPath_spec (f : FaultSpec) (ev : Event) (e : PyErr) (s : Session)
    (hrb : f.errRollbackFault = false) :
    errorPath f ev e s = .ok ((false, "Error: " ++ e.msg),
      { committed :=
          { rows := s.committed.rows
            stats := s.committed.stats
            audits := if f.errAuditCommitFault = true then s.committed.audits
                      else s.committed.audits ++ [errAudit ev e.msg] }
        newRows := [], flushedRows := []
        newAudits := if f.errAuditCommitFault = true then [errAudit ev e.msg] else []
        stagedStats := none }) := by
  obtain ⟨⟨rows, st, audits⟩, nr, fr, na, ss⟩ := s
  cases hac : f.errAuditCommitFault <;>
    simp [errorPath, Session.rollback, Session.commit, Session.addAudit, hrb, hac, errAudit]

/-- C4 counterexample: on a processing failure (unparseable timestamp) the
outcome string is `"Error: " ++ str(e)`, not the contract's token
`"error"`. -/
theorem c4_counterexample :
    (processEvent isoSample noFaults badTsEvent initSession).toOption.map (fun r => r.1) =
        some (false, "Error: Invalid isoformat string: not-a-date") ∧
      "Error: Invalid isoformat string: not-a-date" ≠ "error" :=
  ⟨rfl, by decide⟩

/-- C4 amended: for every event whose processing fails for a reason other
than the dedup unique-key violation (timestamp parse failure, flush
failure, stats-select failure, or success-path commit failure),
`process_event` rolls back — the committed rows and counters are unchanged
— best-effort commits exactly one audit record with action `error`
(swallowing a failure of that commit, which leaves the audit pending), and
returns `(False, "Error: " ++ str(e))` rather than `(False, "error")`. -/
theorem c4_amended (iso : String → Option Nat) (ev : Event) (s : Session) (a : Bool)
    (f : FaultSpec)
    (hnr : s.newRows = []) (hfr : s.flushedRows = []) (hss : s.stagedStats = none)
    (hfail :
      (f = auditFaultSpec a ∧ iso (pyReplaceZ ev.timestamp) = none) ∨
      (f = flushFaultSpec a ∧ (iso (pyReplaceZ ev.timestamp)).isSome = true) ∨
      (f = statsFaultSpec a ∧ (iso (pyReplaceZ ev.timestamp)).isSome = true ∧
        hasKey s.committed.rows (ev.topic, ev.event_id) = false) ∨
      (f = commitFaultSpec a ∧ (iso (pyReplaceZ ev.timestamp)).isSome = true ∧
        hasKey s.committed.rows (ev.topic, ev.event_id) = false)) :
    ∃ m, processEvent iso f ev s =
      .ok ((false, "Error: " ++ m),
        { committed :=
            { rows := s.committed.rows
              stats := s.committed.stats
              audits := if a = true then s.committed.audits
                        else s.committed.audits ++ [errAudit ev m] }
          newRows := [], flushedRows := []
          newAudits := if a = true then [errAudit ev m] else []
          stagedStats := none }) := by
  obtain ⟨⟨rows, st, audits⟩, nr, fr, na, ss⟩ := s
  simp only at hnr hfr hss
  subst hnr; subst hfr; subst hss
  rcases hfail with ⟨hf, hiso⟩ | ⟨hf, hiso⟩ | ⟨hf, hiso, hk⟩ | ⟨hf, hiso, hk⟩ <;> subst hf
  · refine ⟨"Invalid isoformat string: " ++ ev.timestamp, ?_⟩
    have hob : outerBody iso (auditFaultSpec a) ev
        ⟨⟨rows, st, audits⟩, [], [], na, none⟩ =
        .error (.other ("Invalid isoformat string: " ++ ev.timestamp),
          ⟨⟨rows, st, audits⟩, [], [], na, none⟩) := by
      simp [outerBody, hiso]
    rw [processEvent, hob]
    refine (errorPath_spec _ ev _ _ rfl).trans ?_
    simp [auditFaultSpec, noFaults, PyErr.msg]
  · obtain ⟨t, ht⟩ := Option.isSome_iff_exists.mp hiso
    refine ⟨"flush failed", ?_⟩
    have hob : outerBody iso (flushFaultSpec a) ev
        ⟨⟨rows, st, audits⟩, [], [], na, none⟩ =
        .error (.other "flush failed",
          ⟨⟨rows, st, audits⟩, [⟨ev.topic, ev.event_id, t, ev.source, ev.payload⟩],
            [], na, none⟩) := by
      simp [outerBody, ht, Session.addRow, Session.flush, flushFaultSpec, noFaults]
    rw [processEvent, hob]
    refine (errorPath_spec _ ev _ _ rfl).trans ?_
    simp [flushFaultSpec, noFaults, PyErr.msg]
  · obtain ⟨t, ht⟩ := Option.isSome_iff_exists.mp hiso
    refine ⟨"stats select failed", ?_⟩
    have hob : outerBody iso (statsFaultSpec a) ev
        ⟨⟨rows, st, audits⟩, [], [], na, none⟩ =
        .error (.other "stats select failed",
          ⟨⟨rows, st, audits⟩, [],
            [⟨ev.topic, ev.event_id, t, ev.source, ev.payload⟩], na, none⟩) := by
      simp [outerBody, ht, Session.addRow, Session.flush, updateStats,
        statsFaultSpec, noFaults, dedupKey, hk]
    rw [processEvent, hob]
    refine (errorPath_spec _ ev _ _ rfl).trans ?_
    simp [statsFaultSpec, noFaults, PyErr.msg]
  · obtain ⟨t, ht⟩ := Option.isSome_iff_exists.mp hiso
    refine ⟨"commit failed", ?_⟩
    have hob : outerBody iso (commitFaultSpec a) ev
        ⟨⟨rows, st, audits⟩, [], [], na, none⟩ =
        .error (.other "commit failed",
          ⟨⟨rows, st, audits⟩, [],
            [⟨ev.topic, ev.event_id, t, ev.source, ev.payload⟩],
            na ++ [⟨ev.topic, ev.event_id, "processed", "source=" ++ ev.source⟩],
            some { received := st.received + 1
                   unique_processed := st.unique_processed + 1
                   duplicate_dropped := st.duplicate_dropped }⟩) := by
      simp [outerBody, ht, Session.addRow, Session.flush, updateStats,
        Session.readStats, Session.stageStats, Session.addAudit, Session.commit,
        commitFaultSpec, noFaults, dedupKey, hk]
    rw [processEvent, hob]
    refine (errorPath_spec _ ev _ _ rfl).trans ?_
    simp [commitFaultSpec, noFaults, PyErr.msg]

/-- C4 witness: the amended theorem at a concrete parse failure with the
error-audit commit succeeding. -/
theorem c4_witness :
    ∃ m, processEvent isoSample (auditFaultSpec false) badTsEvent initSession =
      .ok ((false, "Error: " ++ m),
        { committed :=
            { rows := initSession.committed.rows
              stats := initSession.committed.stats
              audits := if false = true then initSession.committed.audits
                        else initSession.committed.audits ++ [errAudit badTsEvent m] }
          newRows := [], flushedRows := []
          newAudits := if false = true then [errAudit badTsEvent m] else []
          stagedStats := none }) :=
  c4_amended isoSample badTsEvent initSession false (auditFaultSpec false)
    rfl rfl rfl (Or.inl ⟨rfl, by decide⟩)

/-- C9 counterexample: when the session's rollback raises inside the outer
exception handler, `process_event` propagates the exception instead of
returning a pair. -/
theorem c9_counterexample :
    processEvent isoSample { noFaults with errRollbackFault := true } badTsEvent initSession =
      .error (.other "rollback failed") := by
  rfl

/-- C9 amended: `process_event` returns a `(bool, str)` pair for every event
and every session behaviour — any of flush, stats select or update, audit
write, commit, and the duplicate-path rollbacks may raise — provided the
rollback performed in the outer exception handler itself does not raise. -/
theorem c9_amended (iso : String → Option Nat) (f : FaultSpec) (ev : Event) (s : Session)
    (hrb : f.errRollbackFault = false) :
    ∃ r s1, processEvent iso f ev s = .ok (r, s1) := by
  unfold processEvent
  cases hob : outerBody iso f ev s with
  | ok r => exact ⟨r.1, r.2, rfl⟩
  | error es =>
    obtain ⟨e, s1⟩ := es
    exact ⟨_, _, errorPath_spec f ev e s1 hrb⟩

/-- C9 witness: the amended theorem at a concrete event and fault
behaviour (every injectable fault except the outer rollback enabled). -/
theorem c9_witness :
    FaultSpec.errRollbackFault
        ⟨true, true, true, true, true, true, true, false, true⟩ = false ∧
    (∃ r s1, processEvent isoSample
        ⟨true, true, true, true, true, true, true, false, true⟩
        sampleEvent initSession = .ok (r, s1)) :=
  ⟨rfl, c9_amended isoSample ⟨true, true, true, true, true, true, true, false, true⟩
    sampleEvent initSession rfl⟩

/-- C5: for every event the validator accepts, the timestamp parse the
processor performs (dedup.py line 17) succeeds — both sites evaluate the
same expression `fromisoformat(timestamp.replace("Z", "+00:00"))`
(models.py line 89), so the processor's parse-failure branch, the `none`
arm of `outerBody`'s first match, is unreachable for validator-accepted
events. -/
theorem c5_validator_processor_timestamp (iso : String → Option Nat) (ev : Event)
    (hv : validEvent iso ev = true) :
    ∃ t, iso (pyReplaceZ ev.timestamp) = some t := by
  simp only [validEvent, Bool.and_eq_true] at hv
  have hts : validTimestamp iso ev.timestamp = true := hv.1.2
  simpa [validTimestamp, Option.isSome_iff_exists] using hts

/-- C5 witness: the theorem at the sample event and concrete parser. -/
theorem c5_witness :
    validEvent isoSample sampleEvent = true ∧
    (∃ t, isoSample (pyReplaceZ sampleEvent.timestamp) = some t) :=
  ⟨by decide, c5_validator_processor_timestamp isoSample sampleEvent (by decide)⟩

/-- C6 counterexample: with `DB_ISOLATION_LEVEL=READ COMMITTED` in the
environment, `Config` reads `READ COMMITTED` but the engine is still built
at `SERIALIZABLE` — the environment variable does not determine the
engine's isolation level. -/
theorem c6_counterexample :
    (createEngineArgs envReadCommitted).isolation_level = "SERIALIZABLE" ∧
    (configOf envReadCommitted).map (fun c => c.DB_ISOLATION_LEVEL) =
      some "READ COMMITTED" ∧
    ("SERIALIZABLE" : String) ≠ "READ COMMITTED" := by
  refine ⟨rfl, by decide, by decide⟩

/-- C6 amended: `Config` reads `DB_ISOLATION_LEVEL` (default `SERIALIZABLE`
when unset) and `DB_POOL_SIZE` / `DB_MAX_OVERFLOW` (defaults 10 / 20) from
the environment, but `create_engine` in database.py ignores them: the
engine is always built with `pool_size=10`, `max_overflow=20` and
`isolation_level="SERIALIZABLE"`, whatever the environment holds. -/
theorem c6_amended (env : String → Option String) :
    createEngineArgs env =
        { pool_size := 10, max_overflow := 20, isolation_level := "SERIALIZABLE" } ∧
    configOf (fun _ => none) =
        some { DB_POOL_SIZE := 10, DB_MAX_OVERFLOW := 20
               DB_ISOLATION_LEVEL := "SERIALIZABLE" } :=
  ⟨rfl, by decide⟩

/-- C7 counterexample: the topic `"a\n"` contains `'\n'`, a character
outside the class `[A-Za-z0-9._-]`, yet the validator accepts it: Python's
`$` in `re.match(r"^[a-zA-Z0-9._-]+$", v)` also matches just before a
trailing newline. -/
theorem c7_counterexample :
    validTopic "a\n" = true ∧ topicCharOk '\n' = false := by
  decide

/-- C7 amended: a 255-character topic drawn from the class is accepted and
any 256-character topic is rejected; a topic the validator accepts consists
of class characters except for possibly one trailing newline (the Python
`$` artefact); a whitespace-only `event_id` is rejected. -/
theorem c7_amended :
    (∀ v : String, v.length = 255 → v.data.all topicCharOk = true → validTopic v = true) ∧
    (∀ v : String, v.length = 256 → validTopic v = false) ∧
    (∀ v : String, validTopic v = true →
      v.data.all topicCharOk = true ∨
        (v.data.getLast? = some '\n' ∧ v.data.dropLast.all topicCharOk = true)) ∧
    (∀ v : String, v ≠ "" → v.data.all pySpace = true → validEventId v = false) := by
  refine ⟨?_, ?_, ?_, ?_⟩
  · intro v hlen hall
    have hne : v.data ≠ [] := by
      intro h
      rw [show v.length = v.data.length from rfl, h] at hlen
      simp at hlen
    simp [validTopic, topicRegexMatch, hlen, hall, hne]
  · intro v hlen
    simp [validTopic, hlen]
  · intro v hv
    simp only [validTopic, topicRegexMatch, Bool.and_eq_true, Bool.or_eq_true,
      Bool.not_eq_true', decide_eq_true_eq] at hv
    rcases hv.2 with h | h
    · exact Or.inl h.2
    · exact Or.inr ⟨h.1.1, h.2⟩
  · intro v hne hall
    have : v.data.any (fun c => !pySpace c) = false := by
      simp only [List.all_eq_true] at hall
      simp only [List.any_eq_false, Bool.not_eq_true]
      intro c hc
      simp [hall c hc]
    simp [validEventId, this]

set_option maxRecDepth 4096 in
/-- C7 witness: the amended theorem at a 255-character topic, a
256-character topic, an accepted topic, and a whitespace `event_id`. -/
theorem c7_witness :
    validTopic (String.mk (List.replicate 255 'a')) = true ∧
    validTopic (String.mk (List.replicate 256 'a')) = false ∧
    (("user.login" : String).data.all topicCharOk = true ∨
      (("user.login" : String).data.getLast? = some '\n' ∧
        ("user.login" : String).data.dropLast.all topicCharOk = true)) ∧
    validEventId "  " = false :=
  ⟨c7_amended.1 _ (by decide) (by decide),
   c7_amended.2.1 _ (by decide),
   c7_amended.2.2.1 "user.login" (by decide),
   c7_amended.2.2.2 "  " (by decide) (by decide)⟩

/-- C8: an `EventBatch` of between 1 and 1000 valid events is accepted,
while an empty batch and a batch of 1001 events are rejected by the
`min_items=1, max_items=1000` bounds. -/
theorem c8_batch_bounds (iso : String → Option Nat) (evs : List Event) :
    (evs.all (validEvent iso) = true → 1 ≤ evs.length → evs.length ≤ 1000 →
      validBatch iso evs = true) ∧
    (evs.length = 1001 → validBatch iso evs = false) ∧
    (evs = [] → validBatch iso evs = false) := by
  refine ⟨?_, ?_, ?_⟩
  · intro hall h1 h2
    simp [validBatch, hall, h1, h2]
  · intro hlen
    simp [validBatch, hlen]
  · intro h
    simp [validBatch, h]

/-- C8 witness: a singleton batch of the sample event is accepted; the
1001-fold batch and the empty batch are rejected. -/
theorem c8_witness :
    validBatch isoSample [sampleEvent] = true ∧
    validBatch isoSample (List.replicate 1001 sampleEvent) = false ∧
    validBatch isoSample [] = false :=
  ⟨(c8_batch_bounds isoSample [sampleEvent]).1 (by decide) (by decide) (by decide),
   (c8_batch_bounds isoSample (List.replicate 1001 sampleEvent)).2.1
     (by rw [List.length_replicate]),
   (c8_batch_bounds isoSample []).2.2 rfl⟩

/-- C10: `init_db` is idempotent on the stats singleton — when a stats row
exists it is returned unchanged (all three counters preserved), and only
when it is absent is a row with all counters at zero created; no other
table is touched. -/
theorem c10_init_db_idempotent (db : InitStore) :
    (∀ st, db.statsRow = some st → init_db db = db) ∧
    (db.statsRow = none →
      init_db db = { db with statsRow := some ⟨0, 0, 0⟩ }) := by
  obtain ⟨rows, statsRow, audits⟩ := db
  cases statsRow with
  | none => exact ⟨fun st h => by simp at h, fun _ => rfl⟩
  | some st => exact ⟨fun st2 h => by simp [init_db], fun h => by simp at h⟩

/-- C10 witness: the theorem at a store with counters `5/3/2` (left
unchanged) and at a fresh store (row created at zero). -/
theorem c10_witness :
    init_db ⟨[], some ⟨5, 3, 2⟩, []⟩ = ⟨[], some ⟨5, 3, 2⟩, []⟩ ∧
    init_db ⟨[], none, []⟩ = ⟨[], some ⟨0, 0, 0⟩, []⟩ :=
  ⟨(c10_init_db_idempotent ⟨[], some ⟨5, 3, 2⟩, []⟩).1 ⟨5, 3, 2⟩ rfl,
   (c10_init_db_idempotent ⟨[], none, []⟩).2 rfl⟩

end Aggregator
